import Mathlib

/-!
Verification of the Credify backend (server.js, SMTP and Brevo variants, plus
an earlier revision without resume upload).  The JavaScript handlers are
shallowly embedded: request bodies are records of optional strings
(`Option (List Char)`, a missing form field being JavaScript `undefined`,
which express-validator coerces to `""` for validation and which a template
literal renders as the text `undefined`); each route handler is a pure
function from the request (plus the outcome of the mail transport) to the
list of HTTP responses written, the list of dispatch attempts (sendMail /
fetch calls) with their content, and the console log lines.
-/

/-- JavaScript strings are modelled as lists of characters. -/
abbrev Str := List Char

/-- express-validator reads a missing field as `undefined` and coerces it to
the empty string before running validators. -/
def ov : Option Str → Str
  | none => []
  | some s => s

/-- Whitespace characters removed by JavaScript `String.prototype.trim`
(ASCII part; the sources never feed it other Unicode space). -/
def wsJs (c : Char) : Bool :=
  c == ' ' || c == '\t' || c == '\n' || c == '\r' || c == '\x0b' || c == '\x0c'

/-- JavaScript `trim`, as applied by the express-validator `.trim()`
sanitizer: drop leading and trailing whitespace. -/
def jsTrim (s : Str) : Str :=
  ((s.dropWhile wsJs).reverse.dropWhile wsJs).reverse

/-- JavaScript truthiness of a possibly-missing string
(`undefined` and `""` are falsy). -/
def truthy : Option Str → Bool
  | none => false
  | some s => decide (s ≠ [])

/-- Interpolation of a possibly-missing string into a template literal:
JavaScript renders `undefined` as the text `undefined`. -/
def jsStr : Option Str → Str
  | none => "undefined".data
  | some s => s

/-- `String.prototype.replaceAll` with a single-character pattern, as used by
`escapeHtml` in server.js: every occurrence of `c` is replaced by `r`. -/
def replaceAllChar (c : Char) (r : Str) : Str → Str
  | [] => []
  | a :: s => (if a = c then r else [a]) ++ replaceAllChar c r s

/-- `escapeHtml` from server.js (identical in every variant):
`String(str).replaceAll("&","&amp;").replaceAll("<","&lt;")
.replaceAll(">","&gt;").replaceAll('"',"&quot;").replaceAll("'","&#039;")`,
the `&` replacement being applied first. -/
def escapeHtml (s : Str) : Str :=
  replaceAllChar '\'' "&#039;".data
    (replaceAllChar '"' "&quot;".data
      (replaceAllChar '>' "&gt;".data
        (replaceAllChar '<' "&lt;".data
          (replaceAllChar '&' "&amp;".data s))))

/-- Per-character view of `escapeHtml`: what a single character becomes. -/
def escChar (c : Char) : Str :=
  if c = '&' then "&amp;".data
  else if c = '<' then "&lt;".data
  else if c = '>' then "&gt;".data
  else if c = '"' then "&quot;".data
  else if c = '\'' then "&#039;".data
  else [c]

theorem replaceAllChar_append (c : Char) (r s t : Str) :
    replaceAllChar c r (s ++ t) = replaceAllChar c r s ++ replaceAllChar c r t := by
  induction s with
  | nil => rfl
  | cons a s ih => simp [replaceAllChar, ih]

theorem escapeHtml_nil : escapeHtml [] = [] := rfl

theorem escapeHtml_cons (a : Char) (s : Str) :
    escapeHtml (a :: s) = escChar a ++ escapeHtml s := by
  show escapeHtml ([a] ++ s) = _
  unfold escapeHtml
  simp only [replaceAllChar_append]
  congr 1
  by_cases h1 : a = '&'
  · subst h1; rfl
  by_cases h2 : a = '<'
  · subst h2; rfl
  by_cases h3 : a = '>'
  · subst h3; rfl
  by_cases h4 : a = '"'
  · subst h4; rfl
  by_cases h5 : a = '\''
  · subst h5; rfl
  simp [replaceAllChar, escChar, h1, h2, h3, h4, h5]

theorem escapeHtml_eq_flatMap (s : Str) : escapeHtml s = s.flatMap escChar := by
  induction s with
  | nil => rfl
  | cons a s ih => rw [escapeHtml_cons, ih]; rfl

/-- `escapeHtml` distributes over concatenation. -/
theorem escapeHtml_append (s t : Str) :
    escapeHtml (s ++ t) = escapeHtml s ++ escapeHtml t := by
  simp [escapeHtml_eq_flatMap]

/-- Does the list start with one of the five entity tails that may follow a
`&` produced by `escapeHtml`? -/
def entityAt (l : Str) : Bool :=
  "amp;".data.isPrefixOf l || "lt;".data.isPrefixOf l || "gt;".data.isPrefixOf l ||
    "quot;".data.isPrefixOf l || "#039;".data.isPrefixOf l

/-- Every occurrence of `&` in the list begins one of the five entities
`&amp; &lt; &gt; &quot; &#039;`. -/
def ampOk : Str → Bool
  | [] => true
  | c :: rest => (!(c == '&') || entityAt rest) && ampOk rest

theorem ampOk_cons (c : Char) (l : Str) :
    ampOk (c :: l) = ((!(c == '&') || entityAt l) && ampOk l) := rfl

theorem ampOk_escChar_append (a : Char) (l : Str) (h : ampOk l = true) :
    ampOk (escChar a ++ l) = true := by
  by_cases h1 : a = '&'
  · subst h1
    simp [escChar, ampOk_cons, entityAt, List.isPrefixOf, h]
  by_cases h2 : a = '<'
  · subst h2
    simp [escChar, ampOk_cons, entityAt, List.isPrefixOf, h]
  by_cases h3 : a = '>'
  · subst h3
    simp [escChar, ampOk_cons, entityAt, List.isPrefixOf, h]
  by_cases h4 : a = '"'
  · subst h4
    simp [escChar, ampOk_cons, entityAt, List.isPrefixOf, h]
  by_cases h5 : a = '\''
  · subst h5
    simp [escChar, ampOk_cons, entityAt, List.isPrefixOf, h]
  · have hne : (a == '&') = false := by
      simp [h1]
    simp [escChar, h1, h2, h3, h4, h5, ampOk_cons, hne, h]

theorem ampOk_escapeHtml (s : Str) : ampOk (escapeHtml s) = true := by
  induction s with
  | nil => rfl
  | cons a s ih => rw [escapeHtml_cons]; exact ampOk_escChar_append a _ ih

/-- Decoder for the five entities produced by `escapeHtml`. -/
def unescape : Str → Str
  | [] => []
  | c :: rest =>
    if c = '&' then
      if "amp;".data.isPrefixOf rest then '&' :: unescape (rest.drop 4)
      else if "lt;".data.isPrefixOf rest then '<' :: unescape (rest.drop 3)
      else if "gt;".data.isPrefixOf rest then '>' :: unescape (rest.drop 3)
      else if "quot;".data.isPrefixOf rest then '"' :: unescape (rest.drop 5)
      else if "#039;".data.isPrefixOf rest then '\'' :: unescape (rest.drop 5)
      else c :: unescape rest
    else c :: unescape rest
termination_by s => s.length
decreasing_by
  all_goals simp [List.length_drop]
  all_goals omega

theorem unescape_cons_ne (c : Char) (rest : Str) (h : ¬c = '&') :
    unescape (c :: rest) = c :: unescape rest := by
  simp [unescape, h]

theorem unescape_escChar_append (a : Char) (l : Str) :
    unescape (escChar a ++ l) = a :: unescape l := by
  by_cases h1 : a = '&'
  · subst h1
    show unescape ('&' :: 'a' :: 'm' :: 'p' :: ';' :: l) = '&' :: unescape l
    simp [unescape, List.isPrefixOf]
  by_cases h2 : a = '<'
  · subst h2
    show unescape ('&' :: 'l' :: 't' :: ';' :: l) = '<' :: unescape l
    simp [unescape, List.isPrefixOf]
  by_cases h3 : a = '>'
  · subst h3
    show unescape ('&' :: 'g' :: 't' :: ';' :: l) = '>' :: unescape l
    simp [unescape, List.isPrefixOf]
  by_cases h4 : a = '"'
  · subst h4
    show unescape ('&' :: 'q' :: 'u' :: 'o' :: 't' :: ';' :: l) = '"' :: unescape l
    simp [unescape, List.isPrefixOf]
  by_cases h5 : a = '\''
  · subst h5
    show unescape ('&' :: '#' :: '0' :: '3' :: '9' :: ';' :: l) = '\'' :: unescape l
    simp [unescape, List.isPrefixOf]
  · simp only [escChar, h1, h2, h3, h4, h5, if_false, List.singleton_append]
    exact unescape_cons_ne a l h1

/-- Decoding the five entities recovers the original string. -/
theorem unescape_escapeHtml (s : Str) : unescape (escapeHtml s) = s := by
  induction s with
  | nil => rw [escapeHtml_nil]; simp [unescape]
  | cons a s ih => rw [escapeHtml_cons, unescape_escChar_append, ih]

theorem escapeHtml_injective : Function.Injective escapeHtml := by
  intro s t h
  have := congrArg unescape h
  rwa [unescape_escapeHtml, unescape_escapeHtml] at this

/-- Does the string contain any of the four markup-significant characters
`<`, `>`, `"`, `'`? -/
def hasSpecial (l : Str) : Bool :=
  l.any (fun c => c == '<' || c == '>' || c == '"' || c == '\'')

theorem hasSpecial_escChar (a : Char) : hasSpecial (escChar a) = false := by
  by_cases h1 : a = '&'
  · subst h1; decide
  by_cases h2 : a = '<'
  · subst h2; decide
  by_cases h3 : a = '>'
  · subst h3; decide
  by_cases h4 : a = '"'
  · subst h4; decide
  by_cases h5 : a = '\''
  · subst h5; decide
  · simp [escChar, hasSpecial, h1, h2, h3, h4, h5]

theorem hasSpecial_escapeHtml (s : Str) : hasSpecial (escapeHtml s) = false := by
  induction s with
  | nil => rfl
  | cons a s ih =>
    rw [escapeHtml_cons]
    simp only [hasSpecial, List.any_append, Bool.or_eq_false_iff]
    exact ⟨hasSpecial_escChar a, ih⟩

/-! ## Data model: requests, responses, emails -/

/-- Body of a POST to /api/contact.  Absent fields are `none`. -/
structure ContactReq where
  name : Option Str
  email : Option Str
  loanType : Option Str
  message : Option Str
deriving DecidableEq

/-- Text fields of a POST to /api/career. -/
structure CareerReq where
  fullName : Option Str
  email : Option Str
  phone : Option Str
  role : Option Str
  experience : Option Str
  message : Option Str
deriving DecidableEq

/-- Body of a POST to /api/apply. -/
structure ApplyReq where
  referenceId : Option Str
  loanType : Option Str
  fullName : Option Str
  mobile : Option Str
  email : Option Str
  dob : Option Str
  income : Option Str
  employment : Option Str
  loanAmount : Option Str
  city : Option Str
deriving DecidableEq

/-- An uploaded multipart file as multer's memory storage presents it. -/
structure FileUpload where
  originalname : Str
  mimetype : Str
  bytes : List Nat
deriving DecidableEq

/-- Attachment content: raw bytes over SMTP, a base64 string over the
Brevo HTTP API. -/
inductive AttachContent where
  | bytes (b : List Nat)
  | base64 (s : Str)
deriving DecidableEq

/-- An attachment of an outbound email. -/
structure Attachment where
  name : Str
  contentType : Str
  content : AttachContent
deriving DecidableEq

/-- The claim-relevant content of one dispatch attempt (one `sendMail` call
or one `fetch` POST to the Brevo API).  The `from`/`to` addresses are
environment configuration and carry no request data, so they are omitted. -/
structure Email where
  subject : Str
  html : Str
  attachments : List Attachment
deriving DecidableEq

/-- An HTTP response written by a handler. -/
inductive Resp where
  /-- `res.json({success:true, msg})`, status 200. -/
  | ok (msg : Str)
  /-- `res.status(400).json({success:false, errors: errors.array()})`:
  the express-validator failures, one entry (naming the field) per failed
  validation chain. -/
  | validationErr (errs : List String)
  /-- `res.status(400).json({success:false, error})`. -/
  | badReq (err : Str)
  /-- `res.status(500).json({success:false, error:"Email failed"})`. -/
  | emailFailed
  /-- The express default error handler: a middleware (here multer) passed
  an error that no custom error middleware catches, producing status 500. -/
  | serverError (err : Str)
deriving DecidableEq

/-- HTTP status code of a response. -/
def Resp.status : Resp → Nat
  | .ok _ => 200
  | .validationErr _ => 400
  | .badReq _ => 400
  | .emailFailed => 500
  | .serverError _ => 500

/-- Is the response a field-level validation error list? -/
def Resp.isFieldErrors : Resp → Bool
  | .validationErr _ => true
  | _ => false

/-- Everything observable a handler run produces: the HTTP responses written
(in order), the dispatch attempts with their content, and console output. -/
structure HandlerResult where
  responses : List Resp
  emails : List Email
  logs : List Str
deriving DecidableEq

/-- Outcome of the email transport (`sendMail` promise / `fetch`): success,
or a rejection carrying an error message. -/
abbrev EmailResult := Except Str Unit

/-! ## Validation (express-validator chains, translated per endpoint) -/

/-- /api/contact chains: `name` trim + isLength min 2, `email` isEmail,
`loanType` notEmpty, `message` isLength min 5.  `isEmail` is the
validator.js predicate, kept abstract; results are the failing field
names in chain order (identical in the SMTP and Brevo variants). -/
def contactErrors (isEmail : Str → Bool) (r : ContactReq) : List String :=
  (if 2 ≤ (jsTrim (ov r.name)).length then [] else ["name"]) ++
  (if isEmail (ov r.email) then [] else ["email"]) ++
  (if ov r.loanType ≠ [] then [] else ["loanType"]) ++
  (if 5 ≤ (ov r.message).length then [] else ["message"])

/-- /api/career chains in server.js (both variants): `fullName` trim +
isLength min 2, `email` isEmail, `phone` trim + isLength min 7, `role`
trim + notEmpty, `experience` trim + notEmpty; `message` is
optional + trim and contributes no error. -/
def careerErrors (isEmail : Str → Bool) (r : CareerReq) : List String :=
  (if 2 ≤ (jsTrim (ov r.fullName)).length then [] else ["fullName"]) ++
  (if isEmail (ov r.email) then [] else ["email"]) ++
  (if 7 ≤ (jsTrim (ov r.phone)).length then [] else ["phone"]) ++
  (if jsTrim (ov r.role) ≠ [] then [] else ["role"]) ++
  (if jsTrim (ov r.experience) ≠ [] then [] else ["experience"])

/-- /api/career chains in the earlier revision (part_000): no `.trim()`
sanitizer on phone, role or experience, and no chain for message. -/
def part0CareerErrors (isEmail : Str → Bool) (r : CareerReq) : List String :=
  (if 2 ≤ (jsTrim (ov r.fullName)).length then [] else ["fullName"]) ++
  (if isEmail (ov r.email) then [] else ["email"]) ++
  (if 7 ≤ (ov r.phone).length then [] else ["phone"]) ++
  (if ov r.role ≠ [] then [] else ["role"]) ++
  (if ov r.experience ≠ [] then [] else ["experience"])

/-- /api/apply required-field check:
`if (!fullName || !mobile || !email || !loanType)` (all variants). -/
def applyOk (r : ApplyReq) : Bool :=
  truthy r.fullName && truthy r.mobile && truthy r.email && truthy r.loanType

/-! ## Multer (resume upload middleware) -/

/-- `limits: { fileSize: 5 * 1024 * 1024 }`. -/
def fileSizeLimit : Nat := 5 * 1024 * 1024

/-- MIME allow-list of the SMTP variant's `fileFilter`. -/
def smtpAllowedMimes : List Str :=
  ["application/pdf".data, "application/msword".data,
    "application/vnd.openxmlformats-officedocument.wordprocessingml.document".data]

/-- MIME allow-list of the Brevo variant's `fileFilter`. -/
def brevoAllowedMimes : List Str := ["application/pdf".data]

/-- `upload.single("resume")`: no file passes through; a file is first
screened by `fileFilter` (MIME allow-list, custom `Error` on reject) and
then by the 5MB `fileSize` limit (`MulterError` "File too large").
Either error is passed to `next` and, with no error-handling middleware
registered in server.js, reaches the express default error handler. -/
def multerSingle (allowed : List Str) (filterErr : Str) (f : Option FileUpload) :
    Except Str (Option FileUpload) :=
  match f with
  | none => Except.ok none
  | some file =>
    if file.mimetype ∈ allowed then
      if file.bytes.length ≤ fileSizeLimit then Except.ok (some file)
      else Except.error "File too large".data
    else Except.error filterErr

/-! ## Base64 (Node `Buffer.prototype.toString("base64")`) -/

/-- The standard base64 alphabet. -/
def b64Alphabet : Str :=
  "ABCDEFGHIJKLMNOPQRSTUVWXYZabcdefghijklmnopqrstuvwxyz0123456789+/".data

/-- Character for a 6-bit group. -/
def b64Char (n : Nat) : Char := b64Alphabet.getD n 'A'

/-- Base64 of a byte list, with `=` padding and no line breaks, as Node's
`Buffer.prototype.toString("base64")` produces. -/
def b64encode : List Nat → Str
  | [] => []
  | [a] => [b64Char (a / 4), b64Char (a % 4 * 16), '=', '=']
  | [a, b] => [b64Char (a / 4), b64Char (a % 4 * 16 + b / 16), b64Char (b % 16 * 4), '=']
  | a :: b :: c :: rest =>
    [b64Char (a / 4), b64Char (a % 4 * 16 + b / 16),
      b64Char (b % 16 * 4 + c / 64), b64Char (c % 64)] ++ b64encode rest

/-- `.replace(/(\r\n|\n|\r)/gm, "")` applied to the base64 string. -/
def stripCRLF (s : Str) : Str := s.filter (fun c => !(c == '\r' || c == '\n'))

/-! ## Notification content (template literals, transcribed verbatim) -/

/-- Contact email of the SMTP variant (server.js first revision and
part_000, which are identical here): subject and `html` template literal,
with the express-validator-sanitized `name` (trimmed). -/
def smtpContactEmail (r : ContactReq) : Email :=
  { subject := "New Contact Form Submission [Credify]".data
    html :=
      "\n          <h2>Contact Form Submission</h2>\n          <p><b>Name:</b> ".data
        ++ (escapeHtml (jsTrim (ov r.name))
        ++ ("</p>\n          <p><b>Email:</b> ".data
        ++ (escapeHtml (ov r.email)
        ++ ("</p>\n          <p><b>Loan Type:</b> ".data
        ++ (escapeHtml (ov r.loanType)
        ++ ("</p>\n          <p><b>Message:</b> ".data
        ++ (escapeHtml (ov r.message)
        ++ "</p>\n        ".data)))))))
    attachments := [] }

/-- Contact email of the Brevo variant: same fields, `htmlContent` template
literal indented with six spaces. -/
def brevoContactEmail (r : ContactReq) : Email :=
  { subject := "New Contact Form Submission [Credify]".data
    html :=
      "\n      <h2>Contact Form Submission</h2>\n      <p><b>Name:</b> ".data
        ++ (escapeHtml (jsTrim (ov r.name))
        ++ ("</p>\n      <p><b>Email:</b> ".data
        ++ (escapeHtml (ov r.email)
        ++ ("</p>\n      <p><b>Loan Type:</b> ".data
        ++ (escapeHtml (ov r.loanType)
        ++ ("</p>\n      <p><b>Message:</b> ".data
        ++ (escapeHtml (ov r.message)
        ++ "</p>\n    ".data)))))))
    attachments := [] }

/-- The message block of the server.js career emails (identical text in the
SMTP and Brevo variants): `message ? `<p><b>Message:</b><br>` + escaped
message with newlines turned into `<br>` + `</p>` : ""`, applied to the
`.trim()`-sanitized message. -/
def careerMsgBlock (m : Option Str) : Str :=
  match m with
  | none => []
  | some mv =>
    if mv = [] then []
    else
      "<p><b>Message:</b><br>".data
        ++ (replaceAllChar '\n' "<br>".data (escapeHtml mv) ++ "</p>".data)

/-- Career email of the SMTP variant: subject
`New Career Application [role] - fullName` and the ten-space-indented
`html` template, with the resume as a binary attachment
(`filename`/`content`/`contentType` from the multer file). -/
def smtpCareerEmail (r : CareerReq) (f : FileUpload) : Email :=
  { subject :=
      "New Career Application [".data
        ++ (jsTrim (ov r.role) ++ ("] - ".data ++ jsTrim (ov r.fullName)))
    html :=
      "\n          <h2>Career Application</h2>\n          <p><b>Name:</b> ".data
        ++ (escapeHtml (jsTrim (ov r.fullName))
        ++ ("</p>\n          <p><b>Email:</b> ".data
        ++ (escapeHtml (ov r.email)
        ++ ("</p>\n          <p><b>Phone:</b> ".data
        ++ (escapeHtml (jsTrim (ov r.phone))
        ++ ("</p>\n          <p><b>Role:</b> ".data
        ++ (escapeHtml (jsTrim (ov r.role))
        ++ ("</p>\n          <p><b>Experience:</b> ".data
        ++ (escapeHtml (jsTrim (ov r.experience))
        ++ ("</p>\n          ".data
        ++ (careerMsgBlock (r.message.map jsTrim)
        ++ "\n        ".data)))))))))))
    attachments := [⟨f.originalname, f.mimetype, AttachContent.bytes f.bytes⟩] }

/-- Career email of the Brevo variant: same subject, six-space-indented
`htmlContent`, and the resume attachment base64-encoded inline with
CR/LF stripped (`req.file.buffer.toString("base64").replace(...)`). -/
def brevoCareerEmail (r : CareerReq) (f : FileUpload) : Email :=
  { subject :=
      "New Career Application [".data
        ++ (jsTrim (ov r.role) ++ ("] - ".data ++ jsTrim (ov r.fullName)))
    html :=
      "\n      <h2>Career Application</h2>\n      <p><b>Name:</b> ".data
        ++ (escapeHtml (jsTrim (ov r.fullName))
        ++ ("</p>\n      <p><b>Email:</b> ".data
        ++ (escapeHtml (ov r.email)
        ++ ("</p>\n      <p><b>Phone:</b> ".data
        ++ (escapeHtml (jsTrim (ov r.phone))
        ++ ("</p>\n      <p><b>Role:</b> ".data
        ++ (escapeHtml (jsTrim (ov r.role))
        ++ ("</p>\n      <p><b>Experience:</b> ".data
        ++ (escapeHtml (jsTrim (ov r.experience))
        ++ ("</p>\n      ".data
        ++ (careerMsgBlock (r.message.map jsTrim)
        ++ "\n    ".data)))))))))))
    attachments :=
      [⟨f.originalname, f.mimetype,
        AttachContent.base64 (stripCRLF (b64encode f.bytes))⟩] }

/-- The message block of the part_000 career email: no `<br>` conversion and
the raw (unsanitized) message. -/
def part0MsgBlock (m : Option Str) : Str :=
  match m with
  | none => []
  | some mv =>
    if mv = [] then []
    else "<p><b>Message:</b> ".data ++ (escapeHtml mv ++ "</p>".data)

/-- Career email of the part_000 revision (no resume): subject
`New Career Application [role]` with the raw role, and phone, role and
experience interpolated without the `.trim()` sanitizer. -/
def part0CareerEmail (r : CareerReq) : Email :=
  { subject :=
      "New Career Application [".data ++ (jsStr r.role ++ "]".data)
    html :=
      "\n          <h2>Career Application</h2>\n          <p><b>Name:</b> ".data
        ++ (escapeHtml (jsTrim (ov r.fullName))
        ++ ("</p>\n          <p><b>Email:</b> ".data
        ++ (escapeHtml (ov r.email)
        ++ ("</p>\n          <p><b>Phone:</b> ".data
        ++ (escapeHtml (ov r.phone)
        ++ ("</p>\n          <p><b>Role:</b> ".data
        ++ (escapeHtml (ov r.role)
        ++ ("</p>\n          <p><b>Experience:</b> ".data
        ++ (escapeHtml (ov r.experience)
        ++ ("</p>\n          ".data
        ++ (part0MsgBlock r.message
        ++ "\n        ".data)))))))))))
    attachments := [] }

/-- Loan-application email of the SMTP variant.  After the three escaped
lines, the template interpolates `fullName`, `mobile`, `email` and every
optional field raw (unescaped); a missing optional field renders as the
text `undefined`.  The Brevo variant lacks the raw `Email:` line. -/
def smtpApplyEmail (r : ApplyReq) : Email :=
  { subject := "New Loan Application - ".data ++ jsStr r.referenceId
    html :=
      "\n        <h2>Loan Application</h2>\n        <p><b>Name:</b> ".data
        ++ (escapeHtml (ov r.fullName)
        ++ ("</p>\n        <p><b>Email:</b> ".data
        ++ (escapeHtml (ov r.email)
        ++ ("</p>\n        <p><b>Loan Type:</b> ".data
        ++ (escapeHtml (ov r.loanType)
        ++ ("</p>\n        <p><b>Full Name:</b> ".data
        ++ (jsStr r.fullName
        ++ ("</p>\n        <p><b>Mobile:</b> ".data
        ++ (jsStr r.mobile
        ++ ("</p>\n        <p><b>Email:</b> ".data
        ++ (jsStr r.email
        ++ ("</p>\n        <p><b>Date of Birth:</b> ".data
        ++ (jsStr r.dob
        ++ ("</p>\n        <p><b>Monthly Income:</b> ".data
        ++ (jsStr r.income
        ++ ("</p>\n        <p><b>Employment:</b> ".data
        ++ (jsStr r.employment
        ++ ("</p>\n        <p><b>Loan Amount:</b> ₹".data
        ++ (jsStr r.loanAmount
        ++ ("</p>\n        <p><b>City:</b> ".data
        ++ (jsStr r.city
        ++ "</p>\n      ".data)))))))))))))))))))))
    attachments := [] }

/-- Loan-application email of the Brevo variant: same subject; the
`htmlContent` template has six-space indentation and no raw `Email:` line
between `Mobile:` and `Date of Birth:`. -/
def brevoApplyEmail (r : ApplyReq) : Email :=
  { subject := "New Loan Application - ".data ++ jsStr r.referenceId
    html :=
      "\n      <h2>Loan Application</h2>\n      <p><b>Name:</b> ".data
        ++ (escapeHtml (ov r.fullName)
        ++ ("</p>\n      <p><b>Email:</b> ".data
        ++ (escapeHtml (ov r.email)
        ++ ("</p>\n      <p><b>Loan Type:</b> ".data
        ++ (escapeHtml (ov r.loanType)
        ++ ("</p>\n      <p><b>Full Name:</b> ".data
        ++ (jsStr r.fullName
        ++ ("</p>\n      <p><b>Mobile:</b> ".data
        ++ (jsStr r.mobile
        ++ ("</p>\n      <p><b>Date of Birth:</b> ".data
        ++ (jsStr r.dob
        ++ ("</p>\n      <p><b>Monthly Income:</b> ".data
        ++ (jsStr r.income
        ++ ("</p>\n      <p><b>Employment:</b> ".data
        ++ (jsStr r.employment
        ++ ("</p>\n      <p><b>Loan Amount:</b> ₹".data
        ++ (jsStr r.loanAmount
        ++ ("</p>\n      <p><b>City:</b> ".data
        ++ (jsStr r.city
        ++ "</p>\n    ".data)))))))))))))))))))
    attachments := [] }

/-! ## Route handlers -/

/-- POST /api/contact, SMTP variant (identical in part_000): on validation
failure respond 400 with the errors array; otherwise respond 200
immediately (`// Turant response`), then attempt `sendMail` in the
background, logging success or failure. -/
def smtpContact (isEmail : Str → Bool) (tr : EmailResult) (r : ContactReq) :
    HandlerResult :=
  if contactErrors isEmail r ≠ [] then
    { responses := [Resp.validationErr (contactErrors isEmail r)]
      emails := [], logs := [] }
  else
    { responses := [Resp.ok "Contact form received ✅".data]
      emails := [smtpContactEmail r]
      logs := [match tr with
        | Except.ok _ => "📩 Contact mail sent".data
        | Except.error m => "❌ Contact mail error:".data ++ m] }

/-- POST /api/contact, Brevo variant: on validation failure respond 400;
otherwise `await fetch` to the Brevo API, then respond 200 on success and
500 "Email failed" if the fetch throws. -/
def brevoContact (isEmail : Str → Bool) (tr : EmailResult) (r : ContactReq) :
    HandlerResult :=
  if contactErrors isEmail r ≠ [] then
    { responses := [Resp.validationErr (contactErrors isEmail r)]
      emails := [], logs := [] }
  else
    match tr with
    | Except.ok _ =>
      { responses := [Resp.ok "Contact form submitted ✅".data]
        emails := [brevoContactEmail r], logs := [] }
    | Except.error m =>
      { responses := [Resp.emailFailed]
        emails := [brevoContactEmail r]
        logs := ["❌ Contact mail error:".data ++ m] }

/-- POST /api/career route handler of the SMTP variant, after
`upload.single("resume")` has succeeded yielding `f`: validation 400,
then `Resume required` 400 when no file, then a synchronous `sendMail`
answered with 200 or 500 "Email failed". -/
def smtpCareerHandler (isEmail : Str → Bool) (tr : EmailResult) (r : CareerReq)
    (f : Option FileUpload) : HandlerResult :=
  if careerErrors isEmail r ≠ [] then
    { responses := [Resp.validationErr (careerErrors isEmail r)]
      emails := [], logs := [] }
  else
    match f with
    | none =>
      { responses := [Resp.badReq "Resume required".data]
        emails := [], logs := [] }
    | some file =>
      match tr with
      | Except.ok _ =>
        { responses := [Resp.ok "Career form submitted with resume ✅".data]
          emails := [smtpCareerEmail r file], logs := [] }
      | Except.error m =>
        { responses := [Resp.emailFailed]
          emails := [smtpCareerEmail r file], logs := [m] }

/-- POST /api/career of the SMTP variant including the multer middleware:
a multer error (disallowed MIME type or oversized file) short-circuits to
the express default error handler (status 500). -/
def smtpCareerRoute (isEmail : Str → Bool) (tr : EmailResult) (r : CareerReq)
    (f : Option FileUpload) : HandlerResult :=
  match multerSingle smtpAllowedMimes "Only PDF/DOC/DOCX allowed".data f with
  | Except.error e =>
    { responses := [Resp.serverError e], emails := [], logs := [] }
  | Except.ok f2 => smtpCareerHandler isEmail tr r f2

/-- POST /api/career route handler of the Brevo variant (post-multer):
like the SMTP one but dispatching through `fetch`, and logging
`Received file:` before the `Resume required` 400. -/
def brevoCareerHandler (isEmail : Str → Bool) (tr : EmailResult) (r : CareerReq)
    (f : Option FileUpload) : HandlerResult :=
  if careerErrors isEmail r ≠ [] then
    { responses := [Resp.validationErr (careerErrors isEmail r)]
      emails := [], logs := [] }
  else
    match f with
    | none =>
      { responses := [Resp.badReq "Resume required".data]
        emails := [], logs := ["Received file:".data] }
    | some file =>
      match tr with
      | Except.ok _ =>
        { responses := [Resp.ok "Career form submitted with resume ✅".data]
          emails := [brevoCareerEmail r file], logs := [] }
      | Except.error m =>
        { responses := [Resp.emailFailed]
          emails := [brevoCareerEmail r file]
          logs := ["❌ Career mail error:".data ++ m] }

/-- POST /api/career of the Brevo variant including the multer middleware
(PDF-only allow-list). -/
def brevoCareerRoute (isEmail : Str → Bool) (tr : EmailResult) (r : CareerReq)
    (f : Option FileUpload) : HandlerResult :=
  match multerSingle brevoAllowedMimes "Only PDF allowed".data f with
  | Except.error e =>
    { responses := [Resp.serverError e], emails := [], logs := [] }
  | Except.ok f2 => brevoCareerHandler isEmail tr r f2

/-- POST /api/career of the part_000 revision: no file upload, and the 200
response is sent before the background `sendMail`. -/
def part0Career (isEmail : Str → Bool) (tr : EmailResult) (r : CareerReq) :
    HandlerResult :=
  if part0CareerErrors isEmail r ≠ [] then
    { responses := [Resp.validationErr (part0CareerErrors isEmail r)]
      emails := [], logs := [] }
  else
    { responses := [Resp.ok "Career form received ✅".data]
      emails := [part0CareerEmail r]
      logs := [match tr with
        | Except.ok _ => "📩 Career mail sent".data
        | Except.error m => "❌ Career mail error:".data ++ m] }

/-- POST /api/apply, SMTP variant: `Missing fields` 400 when any of
fullName, mobile, email, loanType is falsy; otherwise respond 200
immediately, then attempt `sendMail` in the background. -/
def smtpApply (tr : EmailResult) (r : ApplyReq) : HandlerResult :=
  if !applyOk r then
    { responses := [Resp.badReq "Missing fields".data]
      emails := [], logs := [] }
  else
    { responses := [Resp.ok "Loan application received ✅".data]
      emails := [smtpApplyEmail r]
      logs := [match tr with
        | Except.ok _ => "📩 Loan mail sent".data
        | Except.error m => "❌ Loan mail error:".data ++ m] }

/-- POST /api/apply, Brevo variant: synchronous — `await fetch`, then 200,
or 500 "Email failed" if the fetch throws. -/
def brevoApply (tr : EmailResult) (r : ApplyReq) : HandlerResult :=
  if !applyOk r then
    { responses := [Resp.badReq "Missing fields".data]
      emails := [], logs := [] }
  else
    match tr with
    | Except.ok _ =>
      { responses := [Resp.ok "Loan application submitted ✅".data]
        emails := [brevoApplyEmail r], logs := [] }
    | Except.error m =>
      { responses := [Resp.emailFailed]
        emails := [brevoApplyEmail r]
        logs := ["❌ Loan mail error:".data ++ m] }

/-- A simple concrete stand-in for validator.js `isEmail`, used only to
instantiate witnesses: the theorems themselves hold for every predicate. -/
def demoIsEmail (s : Str) : Bool := s.contains '@' && s.length ≥ 3

/-! ## Infix helpers and concrete fixtures -/

theorem infix_here (p t l : Str) : l <:+: p ++ (l ++ t) :=
  ⟨p, t, by simp⟩

theorem infix_under (p : Str) {t l : Str} (h : l <:+: t) : l <:+: p ++ t := by
  obtain ⟨s, u, rfl⟩ := h
  exact ⟨p ++ s, u, by simp⟩

/-- Remove the template literals' layout whitespace (spaces and newlines):
the two variants' bodies are compared modulo indentation. -/
def stripWs (s : Str) : Str := s.filter (fun c => !(c == ' ' || c == '\n'))

/-- A contact submission passing every chain. -/
def rcValid : ContactReq :=
  ⟨some "Jo".data, some "a@b.com".data, some "home".data, some "hello!".data⟩

/-- A contact submission with only a one-letter name, as in the spec's
example `{name:"J"}`. -/
def rcBad : ContactReq := ⟨some "J".data, none, none, none⟩

/-- A career submission passing every text chain. -/
def rkValid : CareerReq :=
  ⟨some "Jo".data, some "a@b.com".data, some "1234567".data, some "Dev".data,
    some "2y".data, none⟩

/-- An empty career submission (every chain fails). -/
def rkBad : CareerReq := ⟨none, none, none, none, none, none⟩

/-- A loan application with the four required fields present. -/
def raValid : ApplyReq :=
  ⟨some "R1".data, some "home".data, some "Jo".data, some "1234567".data,
    some "a@b.com".data, none, none, none, none, none⟩

/-- A loan application whose `mobile` is missing. -/
def raNoMobile : ApplyReq :=
  ⟨some "R1".data, some "home".data, some "Jo".data, none,
    some "a@b.com".data, none, none, none, none, none⟩

/-- A loan application whose `dob` is markup. -/
def raDobMarkup : ApplyReq :=
  ⟨some "R1".data, some "home".data, some "Jo".data, some "1234567".data,
    some "a@b.com".data, some "<i>".data, none, none, none, none⟩

/-- A small PDF resume, accepted by both variants' multer configuration. -/
def fPdf : FileUpload :=
  ⟨"resume.pdf".data, "application/pdf".data, [37, 80, 68, 70]⟩

/-- A small text file, rejected by both variants' `fileFilter`. -/
def fTxt : FileUpload := ⟨"r.txt".data, "text/plain".data, [1, 2, 3]⟩

/-- A small DOC resume: inside the SMTP variant's allow-list but outside the
Brevo variant's PDF-only allow-list. -/
def fMsword : FileUpload :=
  ⟨"resume.doc".data, "application/msword".data, [1, 2, 3]⟩

/-! ## Claims -/

/-- C9: for every input string, `escapeHtml` yields no `<`, `>`, `"` or `'`;
every `&` in the output begins one of the five entities
`&amp; &lt; &gt; &quot; &#039;`; and the input is recovered by decoding
those five entities (so `escapeHtml` is injective), `&` being replaced
first so no double-escaping occurs. -/
theorem C9_escapeHtml_sound (s : Str) :
    hasSpecial (escapeHtml s) = false ∧
    ampOk (escapeHtml s) = true ∧
    unescape (escapeHtml s) = s ∧
    ∀ t : Str, escapeHtml s = escapeHtml t → s = t :=
  ⟨hasSpecial_escapeHtml s, ampOk_escapeHtml s, unescape_escapeHtml s,
    fun _ h => escapeHtml_injective h⟩

/-- C9 witness: the properties evaluated at the concrete input `a<b&c"`. -/
theorem C9_escapeHtml_sound_witness :
    hasSpecial (escapeHtml "a<b&c\"".data) = false ∧
    ampOk (escapeHtml "a<b&c\"".data) = true ∧
    unescape (escapeHtml "a<b&c\"".data) = "a<b&c\"".data ∧
    ∀ t : Str, escapeHtml "a<b&c\"".data = escapeHtml t → "a<b&c\"".data = t :=
  C9_escapeHtml_sound "a<b&c\"".data

/-- C1: on every variant of /api/contact and /api/career, a submission
failing any validation chain is answered with a single 400 response
carrying the (non-empty) errors array, and no dispatch is attempted.  For
the career routes the file (if any) is one the multer middleware accepts,
so the handler is reached. -/
theorem C1_invalid_submissions_rejected (isEmail : Str → Bool) (tr : EmailResult)
    (rc : ContactReq) (rk rk0 : CareerReq) (f f2 : Option FileUpload)
    (hc : contactErrors isEmail rc ≠ [])
    (hk : careerErrors isEmail rk ≠ [])
    (hk0 : part0CareerErrors isEmail rk0 ≠ [])
    (hms : multerSingle smtpAllowedMimes "Only PDF/DOC/DOCX allowed".data f = Except.ok f2)
    (hmb : multerSingle brevoAllowedMimes "Only PDF allowed".data f = Except.ok f2) :
    ((smtpContact isEmail tr rc).responses
        = [Resp.validationErr (contactErrors isEmail rc)]
      ∧ (smtpContact isEmail tr rc).emails = []) ∧
    ((brevoContact isEmail tr rc).responses
        = [Resp.validationErr (contactErrors isEmail rc)]
      ∧ (brevoContact isEmail tr rc).emails = []) ∧
    ((smtpCareerRoute isEmail tr rk f).responses
        = [Resp.validationErr (careerErrors isEmail rk)]
      ∧ (smtpCareerRoute isEmail tr rk f).emails = []) ∧
    ((brevoCareerRoute isEmail tr rk f).responses
        = [Resp.validationErr (careerErrors isEmail rk)]
      ∧ (brevoCareerRoute isEmail tr rk f).emails = []) ∧
    ((part0Career isEmail tr rk0).responses
        = [Resp.validationErr (part0CareerErrors isEmail rk0)]
      ∧ (part0Career isEmail tr rk0).emails = []) ∧
    (Resp.validationErr (contactErrors isEmail rc)).status = 400 ∧
    (Resp.validationErr (careerErrors isEmail rk)).status = 400 ∧
    (Resp.validationErr (part0CareerErrors isEmail rk0)).status = 400 := by
  refine ⟨⟨?_, ?_⟩, ⟨?_, ?_⟩, ⟨?_, ?_⟩, ⟨?_, ?_⟩, ⟨?_, ?_⟩, rfl, rfl, rfl⟩
  · simp [smtpContact, hc]
  · simp [smtpContact, hc]
  · simp [brevoContact, hc]
  · simp [brevoContact, hc]
  · simp [smtpCareerRoute, hms, smtpCareerHandler, hk]
  · simp [smtpCareerRoute, hms, smtpCareerHandler, hk]
  · simp [brevoCareerRoute, hmb, brevoCareerHandler, hk]
  · simp [brevoCareerRoute, hmb, brevoCareerHandler, hk]
  · simp [part0Career, hk0]
  · simp [part0Career, hk0]

/-- C1 witness: the empty/short submissions, with no file attached. -/
theorem C1_invalid_submissions_rejected_witness :
    ((smtpContact demoIsEmail (Except.ok ()) rcBad).responses
        = [Resp.validationErr (contactErrors demoIsEmail rcBad)]
      ∧ (smtpContact demoIsEmail (Except.ok ()) rcBad).emails = []) ∧
    ((brevoContact demoIsEmail (Except.ok ()) rcBad).responses
        = [Resp.validationErr (contactErrors demoIsEmail rcBad)]
      ∧ (brevoContact demoIsEmail (Except.ok ()) rcBad).emails = []) ∧
    ((smtpCareerRoute demoIsEmail (Except.ok ()) rkBad none).responses
        = [Resp.validationErr (careerErrors demoIsEmail rkBad)]
      ∧ (smtpCareerRoute demoIsEmail (Except.ok ()) rkBad none).emails = []) ∧
    ((brevoCareerRoute demoIsEmail (Except.ok ()) rkBad none).responses
        = [Resp.validationErr (careerErrors demoIsEmail rkBad)]
      ∧ (brevoCareerRoute demoIsEmail (Except.ok ()) rkBad none).emails = []) ∧
    ((part0Career demoIsEmail (Except.ok ()) rkBad).responses
        = [Resp.validationErr (part0CareerErrors demoIsEmail rkBad)]
      ∧ (part0Career demoIsEmail (Except.ok ()) rkBad).emails = []) ∧
    (Resp.validationErr (contactErrors demoIsEmail rcBad)).status = 400 ∧
    (Resp.validationErr (careerErrors demoIsEmail rkBad)).status = 400 ∧
    (Resp.validationErr (part0CareerErrors demoIsEmail rkBad)).status = 400 :=
  C1_invalid_submissions_rejected demoIsEmail (Except.ok ()) rcBad rkBad rkBad
    none none (by decide) (by decide) (by decide) rfl rfl

/-- C2: every valid contact submission produces exactly one dispatch, whose
HTML body contains the HTML-escaped form of each of the four fields (the
name as sanitized by the `.trim()` chain); in particular escaping turns
`<b>x</b>` into `&lt;b&gt;x&lt;/b&gt;`. -/
theorem C2_valid_contact_escaped_dispatch (isEmail : Str → Bool)
    (tr : EmailResult) (r : ContactReq)
    (h : contactErrors isEmail r = []) :
    (smtpContact isEmail tr r).emails = [smtpContactEmail r] ∧
    escapeHtml (jsTrim (ov r.name)) <:+: (smtpContactEmail r).html ∧
    escapeHtml (ov r.email) <:+: (smtpContactEmail r).html ∧
    escapeHtml (ov r.loanType) <:+: (smtpContactEmail r).html ∧
    escapeHtml (ov r.message) <:+: (smtpContactEmail r).html ∧
    escapeHtml "<b>x</b>".data = "&lt;b&gt;x&lt;/b&gt;".data := by
  refine ⟨by simp [smtpContact, h], ?_, ?_, ?_, ?_, by decide⟩
  all_goals show _ <:+: (smtpContactEmail r).html
  all_goals unfold smtpContactEmail
  all_goals repeat (first | exact infix_here _ _ _ | apply infix_under)

/-- C2 witness: a concrete valid submission. -/
theorem C2_valid_contact_escaped_dispatch_witness :
    (smtpContact demoIsEmail (Except.ok ()) rcValid).emails
      = [smtpContactEmail rcValid] ∧
    escapeHtml (jsTrim (ov rcValid.name)) <:+: (smtpContactEmail rcValid).html ∧
    escapeHtml (ov rcValid.email) <:+: (smtpContactEmail rcValid).html ∧
    escapeHtml (ov rcValid.loanType) <:+: (smtpContactEmail rcValid).html ∧
    escapeHtml (ov rcValid.message) <:+: (smtpContactEmail rcValid).html ∧
    escapeHtml "<b>x</b>".data = "&lt;b&gt;x&lt;/b&gt;".data :=
  C2_valid_contact_escaped_dispatch demoIsEmail (Except.ok ()) rcValid (by decide)

/-- C8: a career submission passing the text chains but carrying no resume
file is answered 400 `Resume required` with no dispatch, in both server.js
variants. -/
theorem C8_missing_resume_rejected (isEmail : Str → Bool) (tr : EmailResult)
    (r : CareerReq) (h : careerErrors isEmail r = []) :
    (smtpCareerRoute isEmail tr r none).responses
      = [Resp.badReq "Resume required".data] ∧
    (smtpCareerRoute isEmail tr r none).emails = [] ∧
    (brevoCareerRoute isEmail tr r none).responses
      = [Resp.badReq "Resume required".data] ∧
    (brevoCareerRoute isEmail tr r none).emails = [] ∧
    (Resp.badReq "Resume required".data).status = 400 := by
  refine ⟨?_, ?_, ?_, ?_, rfl⟩
  · simp [smtpCareerRoute, multerSingle, smtpCareerHandler, h]
  · simp [smtpCareerRoute, multerSingle, smtpCareerHandler, h]
  · simp [brevoCareerRoute, multerSingle, brevoCareerHandler, h]
  · simp [brevoCareerRoute, multerSingle, brevoCareerHandler, h]

/-- C8 witness: a valid career submission without a file. -/
theorem C8_missing_resume_rejected_witness :
    (smtpCareerRoute demoIsEmail (Except.ok ()) rkValid none).responses
      = [Resp.badReq "Resume required".data] ∧
    (smtpCareerRoute demoIsEmail (Except.ok ()) rkValid none).emails = [] ∧
    (brevoCareerRoute demoIsEmail (Except.ok ()) rkValid none).responses
      = [Resp.badReq "Resume required".data] ∧
    (brevoCareerRoute demoIsEmail (Except.ok ()) rkValid none).emails = [] ∧
    (Resp.badReq "Resume required".data).status = 400 :=
  C8_missing_resume_rejected demoIsEmail (Except.ok ()) rkValid (by decide)

/-- C5: when the transport fails on a validated request, the fire-and-forget
endpoints (SMTP-variant contact and apply, which respond before
dispatching) still answer 200 success, while the synchronous endpoints
(SMTP-variant career and all three Brevo endpoints) answer 500
`Email failed`. -/
theorem C5_transport_failure_semantics (isEmail : Str → Bool) (m : Str)
    (rc : ContactReq) (rk : CareerReq) (ra : ApplyReq) (f : FileUpload)
    (hc : contactErrors isEmail rc = [])
    (hk : careerErrors isEmail rk = [])
    (ha : applyOk ra = true)
    (hm : f.mimetype = "application/pdf".data)
    (hs : f.bytes.length ≤ fileSizeLimit) :
    (smtpContact isEmail (Except.error m) rc).responses
      = [Resp.ok "Contact form received ✅".data] ∧
    (smtpApply (Except.error m) ra).responses
      = [Resp.ok "Loan application received ✅".data] ∧
    (smtpCareerRoute isEmail (Except.error m) rk (some f)).responses
      = [Resp.emailFailed] ∧
    (brevoContact isEmail (Except.error m) rc).responses
      = [Resp.emailFailed] ∧
    (brevoCareerRoute isEmail (Except.error m) rk (some f)).responses
      = [Resp.emailFailed] ∧
    (brevoApply (Except.error m) ra).responses = [Resp.emailFailed] ∧
    Resp.emailFailed.status = 500 ∧
    (Resp.ok "Contact form received ✅".data).status = 200 ∧
    (Resp.ok "Loan application received ✅".data).status = 200 := by
  refine ⟨?_, ?_, ?_, ?_, ?_, ?_, rfl, rfl, rfl⟩
  · simp [smtpContact, hc]
  · simp [smtpApply, ha]
  · simp [smtpCareerRoute, multerSingle, hm, hs, smtpAllowedMimes,
      smtpCareerHandler, hk]
  · simp [brevoContact, hc]
  · simp [brevoCareerRoute, multerSingle, hm, hs, brevoAllowedMimes,
      brevoCareerHandler, hk]
  · simp [brevoApply, ha]

/-- C5 witness: valid submissions with a small PDF resume and a failing
transport. -/
theorem C5_transport_failure_semantics_witness :
    (smtpContact demoIsEmail (Except.error "boom".data) rcValid).responses
      = [Resp.ok "Contact form received ✅".data] ∧
    (smtpApply (Except.error "boom".data) raValid).responses
      = [Resp.ok "Loan application received ✅".data] ∧
    (smtpCareerRoute demoIsEmail (Except.error "boom".data) rkValid
        (some fPdf)).responses = [Resp.emailFailed] ∧
    (brevoContact demoIsEmail (Except.error "boom".data) rcValid).responses
      = [Resp.emailFailed] ∧
    (brevoCareerRoute demoIsEmail (Except.error "boom".data) rkValid
        (some fPdf)).responses = [Resp.emailFailed] ∧
    (brevoApply (Except.error "boom".data) raValid).responses
      = [Resp.emailFailed] ∧
    Resp.emailFailed.status = 500 ∧
    (Resp.ok "Contact form received ✅".data).status = 200 ∧
    (Resp.ok "Loan application received ✅".data).status = 200 :=
  C5_transport_failure_semantics demoIsEmail "boom".data rcValid rkValid raValid
    fPdf (by decide) (by decide) (by decide) (by decide) (by decide)

/-- C10: the fire-and-forget handlers write exactly one HTTP response, and
neither that response nor the recorded dispatch attempt depends on the
transport outcome — a failure after the 200 is visible only in the logs. -/
theorem C10_fire_and_forget_response_independent (isEmail : Str → Bool)
    (tr tr2 : EmailResult) (rc : ContactReq) (ra : ApplyReq) (rk : CareerReq) :
    (smtpContact isEmail tr rc).responses.length = 1 ∧
    (smtpContact isEmail tr rc).responses = (smtpContact isEmail tr2 rc).responses ∧
    (smtpContact isEmail tr rc).emails = (smtpContact isEmail tr2 rc).emails ∧
    (smtpApply tr ra).responses.length = 1 ∧
    (smtpApply tr ra).responses = (smtpApply tr2 ra).responses ∧
    (smtpApply tr ra).emails = (smtpApply tr2 ra).emails ∧
    (part0Career isEmail tr rk).responses.length = 1 ∧
    (part0Career isEmail tr rk).responses = (part0Career isEmail tr2 rk).responses ∧
    (part0Career isEmail tr rk).emails = (part0Career isEmail tr2 rk).emails := by
  by_cases hc : contactErrors isEmail rc = [] <;>
    by_cases ha : applyOk ra = true <;>
      by_cases hk : part0CareerErrors isEmail rk = [] <;>
        simp [smtpContact, smtpApply, part0Career, hc, ha, hk]

set_option maxRecDepth 40000 in
/-- C3 counterexample: the accepted loan application `raDobMarkup` carries
`dob = "<i>"`, the dispatch happens, yet the HTML-escaped form
`&lt;i&gt;` of the optional field does not appear in the notification
body (the template interpolates `${dob}` raw) — in either variant. -/
theorem C3_counterexample :
    applyOk raDobMarkup = true ∧
    (smtpApply (Except.ok ()) raDobMarkup).emails = [smtpApplyEmail raDobMarkup] ∧
    ¬("&lt;i&gt;".data <:+: (smtpApplyEmail raDobMarkup).html) ∧
    ¬("&lt;i&gt;".data <:+: (brevoApplyEmail raDobMarkup).html) ∧
    "<i>".data <:+: (smtpApplyEmail raDobMarkup).html := by
  refine ⟨by decide, by decide, ?_, ?_, ?_⟩
  · intro h
    have ha : '&' ∈ (smtpApplyEmail raDobMarkup).html :=
      h.subset (by decide)
    revert ha
    decide
  · intro h
    have ha : '&' ∈ (brevoApplyEmail raDobMarkup).html :=
      h.subset (by decide)
    revert ha
    decide
  · decide

/-- C3 (amended): in every accepted loan application the five optional
fields dob, income, employment, loanAmount and city are interpolated
into the notification body raw (never HTML-escaped) and unconditionally:
the body contains the field's raw value when present and the literal text
`undefined` when absent, in both variants. -/
theorem C3_amended_optional_fields_raw (tr : EmailResult) (r : ApplyReq)
    (h : applyOk r = true) :
    (smtpApply tr r).emails = [smtpApplyEmail r] ∧
    (brevoApply tr r).emails = [brevoApplyEmail r] ∧
    jsStr r.dob <:+: (smtpApplyEmail r).html ∧
    jsStr r.income <:+: (smtpApplyEmail r).html ∧
    jsStr r.employment <:+: (smtpApplyEmail r).html ∧
    jsStr r.loanAmount <:+: (smtpApplyEmail r).html ∧
    jsStr r.city <:+: (smtpApplyEmail r).html ∧
    jsStr r.dob <:+: (brevoApplyEmail r).html ∧
    jsStr r.income <:+: (brevoApplyEmail r).html ∧
    jsStr r.employment <:+: (brevoApplyEmail r).html ∧
    jsStr r.loanAmount <:+: (brevoApplyEmail r).html ∧
    jsStr r.city <:+: (brevoApplyEmail r).html := by
  refine ⟨?_, ?_, ?_, ?_, ?_, ?_, ?_, ?_, ?_, ?_, ?_, ?_⟩
  · simp [smtpApply, h]
  · cases tr with
    | ok u => simp [brevoApply, h]
    | error m => simp [brevoApply, h]
  all_goals first
    | (show _ <:+: (smtpApplyEmail r).html
       unfold smtpApplyEmail
       repeat (first | exact infix_here _ _ _ | apply infix_under))
    | (show _ <:+: (brevoApplyEmail r).html
       unfold brevoApplyEmail
       repeat (first | exact infix_here _ _ _ | apply infix_under))

/-- C3 amended witness: a request with `dob` present and the other optional
fields absent. -/
theorem C3_amended_optional_fields_raw_witness :
    (smtpApply (Except.ok ()) raDobMarkup).emails = [smtpApplyEmail raDobMarkup] ∧
    (brevoApply (Except.ok ()) raDobMarkup).emails = [brevoApplyEmail raDobMarkup] ∧
    jsStr raDobMarkup.dob <:+: (smtpApplyEmail raDobMarkup).html ∧
    jsStr raDobMarkup.income <:+: (smtpApplyEmail raDobMarkup).html ∧
    jsStr raDobMarkup.employment <:+: (smtpApplyEmail raDobMarkup).html ∧
    jsStr raDobMarkup.loanAmount <:+: (smtpApplyEmail raDobMarkup).html ∧
    jsStr raDobMarkup.city <:+: (smtpApplyEmail raDobMarkup).html ∧
    jsStr raDobMarkup.dob <:+: (brevoApplyEmail raDobMarkup).html ∧
    jsStr raDobMarkup.income <:+: (brevoApplyEmail raDobMarkup).html ∧
    jsStr raDobMarkup.employment <:+: (brevoApplyEmail raDobMarkup).html ∧
    jsStr raDobMarkup.loanAmount <:+: (brevoApplyEmail raDobMarkup).html ∧
    jsStr raDobMarkup.city <:+: (brevoApplyEmail raDobMarkup).html :=
  C3_amended_optional_fields_raw (Except.ok ()) raDobMarkup (by decide)

set_option maxRecDepth 40000 in
/-- C4 counterexample: a career submission with valid text fields and a
small `text/plain` resume is not answered 400: the multer `fileFilter`
error reaches the express default error handler (no error middleware is
registered), which answers 500.  No dispatch is performed. -/
theorem C4_counterexample :
    (smtpCareerRoute demoIsEmail (Except.ok ()) rkValid (some fTxt)).responses.map
        Resp.status ≠ [400] ∧
    (smtpCareerRoute demoIsEmail (Except.ok ()) rkValid (some fTxt)).responses.map
        Resp.status = [500] ∧
    (smtpCareerRoute demoIsEmail (Except.ok ()) rkValid (some fTxt)).emails = [] ∧
    (brevoCareerRoute demoIsEmail (Except.ok ()) rkValid (some fTxt)).responses.map
        Resp.status = [500] ∧
    (brevoCareerRoute demoIsEmail (Except.ok ()) rkValid (some fTxt)).emails = [] := by
  refine ⟨by decide, by decide, by decide, by decide, by decide⟩

/-- C4 (amended): a POST to /api/career whose resume exceeds 5MB or has a
MIME type outside that variant's own allow-list (PDF/DOC/DOCX for the
SMTP variant, PDF only for the Brevo variant, each judged independently)
is rejected before the route handler runs — with status 500 (express
default error handler, as server.js registers no error-handling
middleware), not 400 — and no email dispatch is performed. -/
theorem C4_amended_bad_file_rejected_500 (isEmail : Str → Bool)
    (tr : EmailResult) (r : CareerReq) (f : FileUpload) :
    (¬f.mimetype ∈ smtpAllowedMimes ∨ fileSizeLimit < f.bytes.length →
      (smtpCareerRoute isEmail tr r (some f)).responses.map Resp.status = [500] ∧
      (smtpCareerRoute isEmail tr r (some f)).emails = []) ∧
    (¬f.mimetype ∈ brevoAllowedMimes ∨ fileSizeLimit < f.bytes.length →
      (brevoCareerRoute isEmail tr r (some f)).responses.map Resp.status = [500] ∧
      (brevoCareerRoute isEmail tr r (some f)).emails = []) := by
  have hsiz : fileSizeLimit < f.bytes.length →
      ¬f.bytes.length ≤ fileSizeLimit := by omega
  constructor
  · intro hsm
    have e1 : ∃ e, multerSingle smtpAllowedMimes
        "Only PDF/DOC/DOCX allowed".data (some f) = Except.error e := by
      rcases hsm with h | h
      · exact ⟨"Only PDF/DOC/DOCX allowed".data, by simp [multerSingle, h]⟩
      · by_cases hm : f.mimetype ∈ smtpAllowedMimes
        · exact ⟨"File too large".data, by simp [multerSingle, hm, hsiz h]⟩
        · exact ⟨"Only PDF/DOC/DOCX allowed".data, by simp [multerSingle, hm]⟩
    obtain ⟨ea, hea⟩ := e1
    simp [smtpCareerRoute, hea, Resp.status]
  · intro hbr
    have e2 : ∃ e, multerSingle brevoAllowedMimes
        "Only PDF allowed".data (some f) = Except.error e := by
      rcases hbr with h | h
      · exact ⟨"Only PDF allowed".data, by simp [multerSingle, h]⟩
      · by_cases hm : f.mimetype ∈ brevoAllowedMimes
        · exact ⟨"File too large".data, by simp [multerSingle, hm, hsiz h]⟩
        · exact ⟨"Only PDF allowed".data, by simp [multerSingle, hm]⟩
    obtain ⟨eb, heb⟩ := e2
    simp [brevoCareerRoute, heb, Resp.status]

/-- C4 amended witness: a text/plain resume on the SMTP variant, and a DOC
resume — accepted by the SMTP allow-list but outside the Brevo PDF-only
allow-list — on the Brevo variant. -/
theorem C4_amended_bad_file_rejected_500_witness :
    ((smtpCareerRoute demoIsEmail (Except.ok ()) rkValid (some fTxt)).responses.map
        Resp.status = [500] ∧
      (smtpCareerRoute demoIsEmail (Except.ok ()) rkValid (some fTxt)).emails = []) ∧
    ((brevoCareerRoute demoIsEmail (Except.ok ()) rkValid (some fMsword)).responses.map
        Resp.status = [500] ∧
      (brevoCareerRoute demoIsEmail (Except.ok ()) rkValid (some fMsword)).emails = []) :=
  ⟨(C4_amended_bad_file_rejected_500 demoIsEmail (Except.ok ()) rkValid fTxt).1
      (by decide),
    (C4_amended_bad_file_rejected_500 demoIsEmail (Except.ok ()) rkValid fMsword).2
      (by decide)⟩

set_option maxRecDepth 100000 in
/-- C6 counterexample: for the loan application `raValid` the two variants
deliver the same subject but different HTML bodies — the SMTP template
has an extra raw `<p><b>Email:</b> ${email}</p>` line (and different
indentation) that the Brevo template lacks, so the delivered content is
not equivalent. -/
theorem C6_counterexample :
    (smtpApplyEmail raValid).subject = (brevoApplyEmail raValid).subject ∧
    (smtpApplyEmail raValid).html ≠ (brevoApplyEmail raValid).html ∧
    stripWs (smtpApplyEmail raValid).html ≠ stripWs (brevoApplyEmail raValid).html := by
  refine ⟨by decide, by decide, by decide⟩

/-- C6 (amended): on identical inputs the two transports deliver the same
subject on all three endpoints; for contact and career the HTML bodies
agree up to the template literals' layout whitespace; the career
attachment keeps the same filename and content type, the HTTP variant's
content being exactly the base64 encoding (CR/LF stripped) of the bytes
the SMTP variant attaches.  The /api/apply bodies are not equivalent
(see the counterexample): there the equivalence is limited to the
subject. -/
theorem C6_amended_transport_equivalence (rc : ContactReq) (rk : CareerReq)
    (ra : ApplyReq) (f : FileUpload) :
    (smtpContactEmail rc).subject = (brevoContactEmail rc).subject ∧
    stripWs (smtpContactEmail rc).html = stripWs (brevoContactEmail rc).html ∧
    (smtpCareerEmail rk f).subject = (brevoCareerEmail rk f).subject ∧
    stripWs (smtpCareerEmail rk f).html = stripWs (brevoCareerEmail rk f).html ∧
    ((brevoCareerEmail rk f).attachments =
      (smtpCareerEmail rk f).attachments.map (fun a =>
        ⟨a.name, a.contentType,
          match a.content with
          | AttachContent.bytes b => AttachContent.base64 (stripCRLF (b64encode b))
          | c => c⟩)) ∧
    (smtpApplyEmail ra).subject = (brevoApplyEmail ra).subject := by
  refine ⟨rfl, ?_, rfl, ?_, rfl, rfl⟩
  · simp only [smtpContactEmail, brevoContactEmail, stripWs, List.filter_append]
    rfl
  · simp only [smtpCareerEmail, brevoCareerEmail, stripWs, List.filter_append]
    rfl

/-- C7 counterexample: the loan application `raNoMobile` (mobile missing) is
rejected for validation reasons, but its 400 response is the fixed
`{error:"Missing fields"}` — not an enumerated field-level list — in both
variants. -/
theorem C7_counterexample :
    (smtpApply (Except.ok ()) raNoMobile).responses
      = [Resp.badReq "Missing fields".data] ∧
    (smtpApply (Except.ok ()) raNoMobile).responses.map Resp.isFieldErrors
      = [false] ∧
    (brevoApply (Except.ok ()) raNoMobile).responses.map Resp.isFieldErrors
      = [false] := by
  refine ⟨by decide, by decide, by decide⟩

/-- C7 (amended): rejected contact and career submissions do get a 400 with
the field-level errors array (the spec's example `{name:"J"}` yields
exactly `name`, `email`, `loanType`, `message`), but /api/apply answers
every validation failure with the single fixed string `Missing fields`
and no field-level detail. -/
theorem C7_amended_field_level_errors (isEmail : Str → Bool) (tr : EmailResult)
    (rc : ContactReq) (rk : CareerReq) (ra : ApplyReq)
    (hc : contactErrors isEmail rc ≠ [])
    (hk : careerErrors isEmail rk ≠ [])
    (ha : applyOk ra = false)
    (he : isEmail [] = false) :
    (smtpContact isEmail tr rc).responses
      = [Resp.validationErr (contactErrors isEmail rc)] ∧
    (smtpCareerRoute isEmail tr rk none).responses
      = [Resp.validationErr (careerErrors isEmail rk)] ∧
    contactErrors isEmail ⟨some "J".data, none, none, none⟩
      = ["name", "email", "loanType", "message"] ∧
    (smtpApply tr ra).responses = [Resp.badReq "Missing fields".data] ∧
    (brevoApply tr ra).responses = [Resp.badReq "Missing fields".data] ∧
    (Resp.badReq "Missing fields".data).isFieldErrors = false ∧
    (Resp.badReq "Missing fields".data).status = 400 := by
  refine ⟨?_, ?_, ?_, ?_, ?_, rfl, rfl⟩
  · simp [smtpContact, hc]
  · simp [smtpCareerRoute, multerSingle, smtpCareerHandler, hk]
  · have h1 : ov (some "J".data) = "J".data := rfl
    have h2 : ov (none : Option Str) = [] := rfl
    simp only [contactErrors, h1, h2, he]
    decide
  · simp [smtpApply, ha]
  · simp [brevoApply, ha]

/-- C7 amended witness: the example submissions. -/
theorem C7_amended_field_level_errors_witness :
    (smtpContact demoIsEmail (Except.ok ()) rcBad).responses
      = [Resp.validationErr (contactErrors demoIsEmail rcBad)] ∧
    (smtpCareerRoute demoIsEmail (Except.ok ()) rkBad none).responses
      = [Resp.validationErr (careerErrors demoIsEmail rkBad)] ∧
    contactErrors demoIsEmail ⟨some "J".data, none, none, none⟩
      = ["name", "email", "loanType", "message"] ∧
    (smtpApply (Except.ok ()) raNoMobile).responses
      = [Resp.badReq "Missing fields".data] ∧
    (brevoApply (Except.ok ()) raNoMobile).responses
      = [Resp.badReq "Missing fields".data] ∧
    (Resp.badReq "Missing fields".data).isFieldErrors = false ∧
    (Resp.badReq "Missing fields".data).status = 400 :=
  C7_amended_field_level_errors demoIsEmail (Except.ok ()) rcBad rkBad raNoMobile
    (by decide) (by decide) (by decide) (by decide)
